import Mathlib

/-!
Verification of the retrieval-and-extraction pipeline of a Shopify
store-insights service (FastAPI + aiohttp scraper).

The embedding models the dynamically-typed Python data flowing through the
pipeline with an inductive `PyVal`, and translates the functions of
`app/services/shopify_scraper.py`, `app/services/groq_service.py` and the
competitor phase of `app/routers/insights.py` as executable Lean functions.
Network and LLM nondeterminism is captured by explicit environment
parameters (per-URL attempt outcomes, per-page catalog responses, the
remote model's response object); exceptions are modelled with
`Except String`, and the unbounded pagination loop with a fuel parameter
(`Option.none` = the loop has not exited within the given fuel).

Pydantic validation of the schema classes in `app/models/schemas.py` is
modelled strictly (a `str` field accepts only a Python `str`, a
`List[Dict]` field only a list of dicts, and a field without a default is
required). The `scraped_at: datetime` field is a wall-clock timestamp and
is omitted from the model.
-/

/-- A Python/JSON value as it appears in the scraper's dynamically typed
data: records from `/products.json`, results of `json.loads`, and the
fields read off them. Python objects reached via attribute access
(the remote client's response/message objects) are represented as dicts. -/
inductive PyVal where
  | none
  | bool (b : Bool)
  | int (n : Int)
  | str (s : String)
  | list (xs : List PyVal)
  | dict (kvs : List (String × PyVal))

/-- First binding of a key in a dict (Python dicts have unique keys, so
first = only). -/
def pyLookup : List (String × PyVal) → String → Option PyVal
  | [], _ => Option.none
  | (k, v) :: rest, key => if k == key then some v else pyLookup rest key

/-- `d.get(key, dflt)` on a dict. -/
def pyGetD (kvs : List (String × PyVal)) (key : String) (dflt : PyVal) : PyVal :=
  match pyLookup kvs key with
  | some v => v
  | Option.none => dflt

/-- `v.get(key, dflt)` on an arbitrary value: AttributeError unless `v` is
a dict. -/
def pyGetE (v : PyVal) (key : String) (dflt : PyVal) : Except String PyVal :=
  match v with
  | PyVal.dict kvs => Except.ok (pyGetD kvs key dflt)
  | _ => Except.error "AttributeError: object has no attribute get"

/-- Python attribute access `v.name`. Objects are modelled as dicts;
every other value (in particular a Python list) has no such attribute
and raises AttributeError. -/
def pyGetAttrE (v : PyVal) (name : String) : Except String PyVal :=
  match v with
  | PyVal.dict kvs =>
    match pyLookup kvs name with
    | some x => Except.ok x
    | Option.none => Except.error "AttributeError"
  | _ => Except.error "AttributeError"

/-- Python truthiness. -/
def truthy : PyVal → Bool
  | PyVal.none => false
  | PyVal.bool b => b
  | PyVal.int n => n != 0
  | PyVal.str s => !s.isEmpty
  | PyVal.list xs => !xs.isEmpty
  | PyVal.dict kvs => !kvs.isEmpty

/-- `v or ""` as used for the string fields of a product record. -/
def pyOrEmpty (v : PyVal) : PyVal := if truthy v then v else PyVal.str ""

mutual

/-- Python `repr` of a value (as far as the pipeline can observe it:
`str()` of a list/dict uses `repr` on the elements). -/
def pyRepr : PyVal → String
  | PyVal.none => "None"
  | PyVal.bool true => "True"
  | PyVal.bool false => "False"
  | PyVal.int n => toString n
  | PyVal.str s => "\x27" ++ s ++ "\x27"
  | PyVal.list xs => "[" ++ pyReprItems xs ++ "]"
  | PyVal.dict kvs => "\x7b" ++ pyReprPairs kvs ++ "\x7d"

/-- Comma-separated `repr`s of list items. -/
def pyReprItems : List PyVal → String
  | [] => ""
  | [x] => pyRepr x
  | x :: y :: rest => pyRepr x ++ ", " ++ pyReprItems (y :: rest)

/-- Comma-separated `repr`s of dict entries. -/
def pyReprPairs : List (String × PyVal) → String
  | [] => ""
  | [(k, v)] => "\x27" ++ k ++ "\x27: " ++ pyRepr v
  | (k, v) :: p :: rest => "\x27" ++ k ++ "\x27: " ++ pyRepr v ++ ", " ++ pyReprPairs (p :: rest)

end

/-- Python `str(v)`. -/
def pyStr : PyVal → String
  | PyVal.str s => s
  | v => pyRepr v

/-- Iterating a Python value, as `list.extend` and `for _ in v` do:
lists yield their elements, strings their characters, dicts their keys;
everything else raises TypeError (`Option.none`). -/
def pyExtend : PyVal → Option (List PyVal)
  | PyVal.list xs => some xs
  | PyVal.str s => some (s.toList.map (fun c => PyVal.str (String.mk [c])))
  | PyVal.dict kvs => some (kvs.map (fun kv => PyVal.str kv.1))
  | _ => Option.none

/-- Pydantic validation of a `str` field. -/
def asStrE : PyVal → Except String String
  | PyVal.str s => Except.ok s
  | _ => Except.error "ValidationError: str type expected"

/-- Pydantic validation of an `Optional[str]` field. -/
def asOptStrE : PyVal → Except String (Option String)
  | PyVal.none => Except.ok Option.none
  | PyVal.str s => Except.ok (some s)
  | _ => Except.error "ValidationError: str or null expected"

/-- Pydantic validation of a `List[str]` field given the already-collected
element values. -/
def asStrListE (xs : List PyVal) : Except String (List String) :=
  xs.mapM asStrE

/-- Substring helpers (Python `needle in haystack`). -/
def charsStartWith : List Char → List Char → Bool
  | _, [] => true
  | [], _ :: _ => false
  | c :: cs, d :: ds => c == d && charsStartWith cs ds

/-- Does the character list contain the pattern as a contiguous segment? -/
def charsContain : List Char → List Char → Bool
  | [], pat => pat.isEmpty
  | c :: cs, pat => charsStartWith (c :: cs) pat || charsContain cs pat

/-- Python `pat in s`. -/
def strContains (s pat : String) : Bool :=
  charsContain s.toList pat.toList

/-- Python `s.startswith(pre)`. -/
def strStarts (s pre : String) : Bool :=
  charsStartWith s.toList pre.toList

/-- Python `s.lower()`. -/
def strLower (s : String) : String :=
  String.mk (s.toList.map Char.toLower)

/-- Python `s.split(sep)` on character lists (structural recursion, with
the character count as fuel; `sep` is non-empty at every call site). -/
def splitCharsFuel (sep : List Char) : Nat → List Char → List Char → List (List Char)
  | 0, cs, cur => [cur.reverse ++ cs]
  | fuel + 1, cs, cur =>
    match cs with
    | [] => [cur.reverse]
    | c :: rest =>
      if charsStartWith (c :: rest) sep then
        cur.reverse :: splitCharsFuel sep fuel (List.drop sep.length (c :: rest)) []
      else splitCharsFuel sep fuel rest (c :: cur)

/-- Python `s.split(sep)` for a non-empty separator. -/
def pySplit (s sep : String) : List String :=
  if sep.isEmpty then [s]
  else (splitCharsFuel sep.toList (s.toList.length + 1) s.toList []).map
    (fun cs => String.mk cs)

/-- `app/models/schemas.py` `ProductSchema`. `available` has NO default in
the source schema, so it is a required field here as well. -/
structure ProductSchema where
  id : Option String := Option.none
  title : String
  handle : String
  price : Option String := Option.none
  compare_at_price : Option String := Option.none
  available : Bool
  images : List String := []
  variants : List (List (String × PyVal)) := []
  tags : List String := []
  vendor : Option String := Option.none
  product_type : Option String := Option.none
  description : Option String := Option.none

/-- `app/models/schemas.py` `ContactInfo`. -/
structure ContactInfo where
  emails : List String := []
  phones : List String := []
  addresses : List String := []

/-- `app/models/schemas.py` `SocialHandles`. -/
structure SocialHandles where
  instagram : Option String := Option.none
  facebook : Option String := Option.none
  twitter : Option String := Option.none
  tiktok : Option String := Option.none
  youtube : Option String := Option.none
  linkedin : Option String := Option.none

/-- `app/models/schemas.py` `FAQ`. -/
structure FAQ where
  question : String
  answer : String

/-- `app/models/schemas.py` `PolicyInfo`. -/
structure PolicyInfo where
  privacy_policy : Option String := Option.none
  return_policy : Option String := Option.none
  refund_policy : Option String := Option.none
  terms_of_service : Option String := Option.none
  shipping_policy : Option String := Option.none

/-- `app/models/schemas.py` `BrandInsights` (aggregate root;
`scraped_at` omitted, see the header comment). `important_links` is a
Python dict built in insertion order, modelled as an association list. -/
structure BrandInsights where
  website_url : String
  brand_name : Option String := Option.none
  brand_description : Option String := Option.none
  product_catalog : List ProductSchema := []
  hero_products : List ProductSchema := []
  contact_info : ContactInfo := {}
  social_handles : SocialHandles := {}
  policies : PolicyInfo := {}
  faqs : List FAQ := []
  important_links : List (String × String) := []
  total_products : Nat := 0
  status : String := "success"
  error_message : Option String := Option.none

/-- `BrandInsights(website_url=url, status="error", error_message=msg)`:
every other field keeps its schema default. -/
def errorInsights (url msg : String) : BrandInsights :=
  { website_url := url, status := "error", error_message := some msg }

/-! ## Fetcher (`ShopifyScraper.fetch_url`, shopify_scraper.py lines 34-62) -/

/-- Outcome of one `session.get` attempt for a URL: a 200 response whose
body was read successfully, a non-200 HTTP status, or a raised exception
(connection error, timeout, or a failure while reading the body). -/
inductive Attempt where
  | ok (body : String)
  | status (code : Nat)
  | exn

/-- The observable behaviour of one `fetch_url` call: the returned pair
(`body`, `status`), the number of requests issued, and the sleeps inserted
between attempts, in order. -/
structure FetchRun where
  body : String
  status : Nat
  requests : Nat
  delays : List Nat

/-- Backoff before the next attempt: `5 * (attempt + 1)` after a 429,
otherwise the fixed `2` of the generic-error path. -/
def attemptDelay (i code : Nat) : Nat :=
  if code == 429 then 5 * (i + 1) else 2

/-- The retry loop of `fetch_url` over the remaining attempt indices. -/
def fetchLoop (att : Nat → Attempt) : List Nat → Nat → List Nat → FetchRun
  | [], made, ds => { body := "", status := 500, requests := made, delays := ds.reverse }
  | i :: rest, made, ds =>
    match att i with
    | Attempt.ok body => { body := body, status := 200, requests := made + 1, delays := ds.reverse }
    | Attempt.status code => fetchLoop att rest (made + 1) (attemptDelay i code :: ds)
    | Attempt.exn => fetchLoop att rest (made + 1) (2 :: ds)

/-- `fetch_url`: three attempts (`for attempt in range(3)`), then
`("", 500)`. -/
def fetch_url (att : Nat → Attempt) : FetchRun :=
  fetchLoop att [0, 1, 2] 0 []

/-! ## Catalog paginator (`get_products_json`, lines 64-88) -/

/-- Response of the `/products.json` endpoint for one page:
`ok v` is a 200 response that parsed as a JSON object, with `v` the value
of `data.get("products", [])`; `fail` is a non-200 status, a JSON parse
failure, or a non-object JSON body (whose `.get` raises and is caught). -/
inductive PageResp where
  | ok (products : PyVal)
  | fail

/-- The `while True` pagination loop, with fuel. `Option.none` means the
loop has not exited within `fuel` iterations. On exit it returns the
accumulated records and the number of page requests issued. -/
def pagesLoop (ep : Nat → PageResp) : Nat → Nat → List PyVal → Nat → Option (List PyVal × Nat)
  | 0, _, _, _ => Option.none
  | fuel + 1, page, acc, reqs =>
    match ep page with
    | PageResp.fail => some (acc, reqs + 1)
    | PageResp.ok v =>
      if truthy v = false then some (acc, reqs + 1)
      else
        match pyExtend v with
        | Option.none => some (acc, reqs + 1)
        | some items =>
          if items.length < 250 then some (acc ++ items, reqs + 1)
          else pagesLoop ep fuel (page + 1) (acc ++ items) (reqs + 1)

/-- `get_products_json`: pages are requested starting from page 1 with an
empty accumulator. -/
def get_products_json (ep : Nat → PageResp) (fuel : Nat) : Option (List PyVal × Nat) :=
  pagesLoop ep fuel 1 [] 0

/-! ## Record normalizer (`parse_product`, lines 90-124) -/

/-- Pydantic validation of the `variants: List[Dict[str, Any]]` field; the
value passed is `variants if isinstance(variants, list) else []`. -/
def variantsField (v : PyVal) : Except String (List (List (String × PyVal)))
  := match v with
     | PyVal.list xs => xs.mapM (fun x => match x with
         | PyVal.dict kvs => Except.ok kvs
         | _ => (Except.error "ValidationError: dict type expected" : Except String (List (String × PyVal))))
     | _ => Except.ok []

/-- `any(variant.get("available", False) for variant in variants if
isinstance(variant, dict))`: iterating a string/dict yields characters/keys
(never dicts, hence False); iterating a non-iterable raises TypeError. -/
def pyAnyAvailable : PyVal → Except String Bool
  | PyVal.list xs => Except.ok (xs.any (fun x => match x with
      | PyVal.dict kvs => truthy (pyGetD kvs "available" (PyVal.bool false))
      | _ => false))
  | PyVal.str _ => Except.ok false
  | PyVal.dict _ => Except.ok false
  | _ => Except.error "TypeError: object is not iterable"

/-- The body of the `try` block of `parse_product`, including the pydantic
validation performed by the final `ProductSchema(...)` call. A non-dict
record raises at its first `in`/`.get`/index operation. -/
def parseBody (v : PyVal) : Except String ProductSchema := do
  let kvs ← (match v with
    | PyVal.dict kvs => Except.ok kvs
    | _ => (Except.error "AttributeError: record is not a dict" : Except String (List (String × PyVal))))
  let images_vals : List PyVal :=
    match pyLookup kvs "images" with
    | some (PyVal.list xs) => xs.filterMap (fun x => match x with
        | PyVal.dict ik => some (pyGetD ik "src" (PyVal.str ""))
        | _ => (Option.none : Option PyVal))
    | _ => []
  let variantsV := pyGetD kvs "variants" (PyVal.list [])
  let price ← (match variantsV with
    | PyVal.list (v0 :: _) =>
      (match v0 with
       | PyVal.dict vk => Except.ok (some (pyStr (pyGetD vk "price" (PyVal.str "0"))))
       | _ => (Except.error "AttributeError: variant has no attribute get" : Except String (Option String)))
    | _ => Except.ok (Option.none : Option String))
  let tags : List String :=
    match pyLookup kvs "tags" with
    | some (PyVal.str s) => ((pySplit s ",").map (fun t => t.trim)).filter (fun t => !t.isEmpty)
    | some (PyVal.list xs) => xs.map pyStr
    | _ => []
  let idStr := pyStr (pyGetD kvs "id" (PyVal.str ""))
  let titleV := pyOrEmpty (pyGetD kvs "title" (PyVal.str ""))
  let handleV := pyOrEmpty (pyGetD kvs "handle" (PyVal.str ""))
  let available ← pyAnyAvailable variantsV
  let vendorV := pyOrEmpty (pyGetD kvs "vendor" (PyVal.str ""))
  let ptypeV := pyOrEmpty (pyGetD kvs "product_type" (PyVal.str ""))
  let descV := pyOrEmpty (pyGetD kvs "body_html" (PyVal.str ""))
  let title ← asStrE titleV
  let handle ← asStrE handleV
  let images ← asStrListE images_vals
  let variants ← variantsField variantsV
  let vendor ← asStrE vendorV
  let product_type ← asStrE ptypeV
  let description ← asStrE descV
  Except.ok { id := some idStr, title := title, handle := handle, price := price,
              compare_at_price := Option.none, available := available, images := images,
              variants := variants, tags := tags, vendor := some vendor,
              product_type := some product_type, description := some description }

/-- Pydantic construction with a required `bool` field supplied (or not):
a missing required field is a ValidationError. -/
def requireBoolField (name : String) (x : Option Bool) (k : Bool → ProductSchema) :
    Except String ProductSchema :=
  match x with
  | some b => Except.ok (k b)
  | Option.none => Except.error ("ValidationError: " ++ name ++ ": field required")

/-- `parse_product`. The except handler executes
`ProductSchema(title="Parse Error", handle="error")`, which does NOT pass
a value for the required `available` field (schemas.py line 11 declares
`available: bool` with no default), so the handler itself raises a
pydantic ValidationError, which propagates to the caller. -/
def parse_product (v : PyVal) : Except String ProductSchema :=
  match parseBody v with
  | Except.ok p => Except.ok p
  | Except.error _ =>
    requireBoolField "available" Option.none
      (fun a => { title := "Parse Error", handle := "error", available := a })

/-! ## URL helpers -/

/-- URL normalization used by the orchestrator and the router:
`if not url.startswith(("http://", "https://")): url = "https://" + url`. -/
def normalizeUrl (u : String) : String :=
  if strStarts u "http://" || strStarts u "https://" then u else "https://" ++ u

/-- Scheme and host of an absolute URL. -/
def schemeHost (base : String) : String :=
  match pySplit base "://" with
  | scheme :: rest :: _ => scheme ++ "://" ++ ((pySplit rest "/").headD "")
  | _ => base

/-- `urllib.parse.urljoin(base, url)` restricted to the shapes the pipeline
produces: an absolute `url` wins, a root-relative `url` replaces the path
of `base`, and (an approximation, reachable only for anchor hrefs that are
plain relative references) any other `url` is appended to `base`. -/
def urljoin (base url : String) : String :=
  if url.isEmpty then base
  else if strContains url "://" then url
  else if strStarts url "/" then schemeHost base ++ url
  else base ++ "/" ++ url

/-! ## Hero matcher (`extract_hero_products`, lines 126-150)

The homepage markup is represented by the list of anchor `href` values in
document order (the BeautifulSoup view the function actually consumes).

Line 138 of the source computes
`handle = href.split("/products/")[-1].split("?")[0].split("#")`:
the trailing `[0]` is missing, so `handle` is a Python LIST of strings,
and `product_handles.add(handle)` raises
`TypeError: unhashable type: list`, which the enclosing `try` swallows,
returning `[]`. -/

/-- The value line 138 binds to `handle`: a list of strings. -/
def heroHandleParts (href : String) : List String :=
  pySplit ((pySplit ((pySplit href "/products/").getLastD "") "?").headD "") "#"

/-- The first loop of `extract_hero_products`: building the
`product_handles` set over the first 10 product links. Adding the
list-valued `handle` to a set raises TypeError at the first iteration
whose href contains the marker. -/
def heroHandlesSet : List String → Except String (List (List String))
  | [] => Except.ok []
  | href :: rest =>
    if strContains href "/products/" then
      Except.error ("TypeError: unhashable type: list (handle = ["
        ++ String.intercalate ", " (heroHandleParts href) ++ "])")
    else heroHandlesSet rest

/-- Python `str == list` comparison is always False, so membership of a
string handle in a set of list-valued handles is always False. -/
def pyStrEqStrList (_s : String) (_xs : List String) : Bool := false

/-- The second loop of `extract_hero_products`: collect catalog products
whose handle is in the set, stopping once 8 are collected. -/
def heroSelect : List ProductSchema → List (List String) → List ProductSchema → List ProductSchema
  | [], _, acc => acc.reverse
  | p :: rest, hs, acc =>
    if hs.any (fun h => pyStrEqStrList p.handle h) then
      if acc.length + 1 >= 8 then (p :: acc).reverse
      else heroSelect rest hs (p :: acc)
    else heroSelect rest hs acc

/-- The `try` body of `extract_hero_products`. -/
def heroBody (anchors : List String) (all_products : List ProductSchema) :
    Except String (List ProductSchema) :=
  match heroHandlesSet ((anchors.filter (fun a => strContains a "/products/")).take 10) with
  | Except.error e => Except.error e
  | Except.ok hs => Except.ok (heroSelect all_products hs [])

/-- `extract_hero_products`: any exception in the body yields `[]`. -/
def extract_hero_products (anchors : List String) (all_products : List ProductSchema) :
    List ProductSchema :=
  match heroBody anchors all_products with
  | Except.ok ps => ps
  | Except.error _ => []

/-! ## Policy and link discoverers (lines 152-205) -/

/-- Inner loop of `extract_policies` for one policy kind: probe the
candidate paths in order through `fetch_url`; the first with status 200
and a non-empty body is recorded. -/
def resolvePolicy (att : String → Nat → Attempt) (base : String) (paths : List String) :
    Option String :=
  paths.findSome? (fun p =>
    let full := urljoin base p
    let r := fetch_url (att full)
    if r.status == 200 && !r.body.isEmpty then some full else Option.none)

/-- `extract_policies`, with the candidate path lists of lines 155-161. -/
def extract_policies (att : String → Nat → Attempt) (base : String) : PolicyInfo :=
  { privacy_policy := resolvePolicy att base ["/pages/privacy-policy", "/policies/privacy-policy", "/privacy"],
    return_policy := resolvePolicy att base ["/pages/return-policy", "/policies/refund-policy", "/returns"],
    refund_policy := resolvePolicy att base ["/pages/refund-policy", "/policies/refund-policy", "/refunds"],
    terms_of_service := resolvePolicy att base ["/pages/terms-of-service", "/policies/terms-of-service", "/terms"],
    shipping_policy := resolvePolicy att base ["/pages/shipping-policy", "/policies/shipping-policy", "/shipping"] }

/-- The link categories and candidate patterns of lines 182-190, in source
order. -/
def linkPatterns : List (String × List String) :=
  [("Contact Us", ["/pages/contact", "/contact", "/contact-us"]),
   ("About Us", ["/pages/about", "/about", "/about-us"]),
   ("Order Tracking", ["/account/login", "/track", "/tracking"]),
   ("Blog", ["/blogs", "/blog"]),
   ("Support", ["/pages/support", "/support", "/help"]),
   ("Size Guide", ["/pages/size-guide", "/size-guide"]),
   ("FAQ", ["/pages/faq", "/faq", "/pages/frequently-asked-questions"])]

/-- One category of `extract_important_links`: the first pattern for which
some anchor href matches case-insensitively wins; `soup.find` returns the
first matching anchor in document order. -/
def linkFor (anchors : List String) (base : String) (pats : List String) : Option String :=
  pats.findSome? (fun pat =>
    match anchors.find? (fun h => strContains (strLower h) (strLower pat)) with
    | some href => if !href.isEmpty then some (urljoin base href) else Option.none
    | Option.none => Option.none)

/-- `extract_important_links` over the anchor hrefs of the homepage. -/
def extract_important_links (anchors : List String) (base : String) : List (String × String) :=
  linkPatterns.foldl (fun acc kv =>
    match linkFor anchors base kv.2 with
    | some u => acc ++ [(kv.1, u)]
    | Option.none => acc) []

/-! ## Text-understanding collaborator (`groq_service.py`) -/

/-- Outcome of one `client.chat.completions.create` call: either a
response object whose `choices` is a (possibly empty) Python list, or a
raised exception (network fault, missing credential, ...). -/
inductive GroqOutcome where
  | resp (choices : List PyVal)
  | exn

/-- The `try` body of `GroqService.extract_brand_info`
(`response.choices[0].message.content`, then `json.loads`). `jl` models
`json.loads` on the returned text. -/
def extract_brand_infoBody (jl : String → Except String PyVal) (o : GroqOutcome) :
    Except String PyVal :=
  match o with
  | GroqOutcome.exn => Except.error "APIError"
  | GroqOutcome.resp choices =>
    match choices with
    | [] => Except.error "IndexError: list index out of range"
    | c :: _ =>
      match pyGetAttrE c "message" with
      | Except.error e => Except.error e
      | Except.ok msg =>
        match pyGetAttrE msg "content" with
        | Except.error e => Except.error e
        | Except.ok content =>
          match content with
          | PyVal.str s => jl s
          | _ => Except.error "TypeError: the JSON object must be str"

/-- `extract_brand_info`: both except clauses return `{}`. The HTML and
URL arguments only feed the prompt, whose effect is captured by `o`. -/
def extract_brand_info (jl : String → Except String PyVal) (o : GroqOutcome)
    (_html _url : String) : PyVal :=
  match extract_brand_infoBody jl o with
  | Except.ok v => v
  | Except.error _ => PyVal.dict []

/-- The `try` body of `GroqService.extract_faqs`. Line 82 of the source
reads `response.choices.message.content`: the attribute `message` is read
off the `choices` LIST itself (the `[0]` index is missing), which raises
AttributeError on every call. -/
def extract_faqsBody (jl : String → Except String PyVal) (o : GroqOutcome) :
    Except String PyVal :=
  match o with
  | GroqOutcome.exn => Except.error "APIError"
  | GroqOutcome.resp choices =>
    match pyGetAttrE (PyVal.list choices) "message" with
    | Except.error e => Except.error e
    | Except.ok msg =>
      match pyGetAttrE msg "content" with
      | Except.error e => Except.error e
      | Except.ok content =>
        match content with
        | PyVal.str s => jl s
        | _ => Except.error "TypeError: the JSON object must be str"

/-- `extract_faqs`: the bare `except:` returns `[]`. -/
def extract_faqs (jl : String → Except String PyVal) (o : GroqOutcome)
    (_html : String) : PyVal :=
  match extract_faqsBody jl o with
  | Except.ok v => v
  | Except.error _ => PyVal.list []

/-! ## Orchestrator (`scrape_shopify_store`, lines 207-312) -/

/-- The environment of one orchestration run: per-URL fetch behaviour
(`att url attemptIdx`), the catalog endpoint behaviour per base URL and
page, pagination fuel, the BeautifulSoup anchor view of an HTML text,
`json.loads`, and the remote model call outcomes for the brand-info and
FAQ prompts. -/
structure ScrapeEnv where
  att : String → Nat → Attempt
  pages : String → Nat → PageResp
  fuel : Nat
  anchorsOf : String → List String
  jsonLoads : String → Except String PyVal
  brandOutcome : GroqOutcome
  faqOutcome : GroqOutcome

/-- The FAQ list comprehension of lines 260-261:
`[FAQ(question=faq.get("question", ""), answer=faq.get("answer", ""))
for faq in faqs_data if faq.get("question") and faq.get("answer")]`,
including the pydantic validation of each `FAQ(...)`. -/
def faqsCollect : List PyVal → Except String (List FAQ)
  | [] => Except.ok []
  | it :: rest =>
    match it with
    | PyVal.dict k =>
      if truthy (pyGetD k "question" PyVal.none) && truthy (pyGetD k "answer" PyVal.none) then
        match asStrE (pyGetD k "question" (PyVal.str "")), asStrE (pyGetD k "answer" (PyVal.str "")) with
        | Except.ok q, Except.ok a => (faqsCollect rest).map (fun tl => { question := q, answer := a } :: tl)
        | Except.error e, _ => Except.error e
        | _, Except.error e => Except.error e
      else faqsCollect rest
    | _ => Except.error "AttributeError: object has no attribute get"

/-- Iterate whatever `extract_faqs` returned and build the FAQ list. -/
def faqsFromData (v : PyVal) : Except String (List FAQ) :=
  match pyExtend v with
  | Option.none => Except.error "TypeError: object is not iterable"
  | some items => faqsCollect items

/-- Lines 273-276: `ContactInfo(emails=brand_info.get("contact_emails", []),
phones=brand_info.get("contact_phones", []))` with pydantic validation. -/
def buildContact (bi : PyVal) : Except String ContactInfo := do
  let e ← pyGetE bi "contact_emails" (PyVal.list [])
  let p ← pyGetE bi "contact_phones" (PyVal.list [])
  let emails ← (match e with
    | PyVal.list xs => asStrListE xs
    | _ => (Except.error "ValidationError: list type expected" : Except String (List String)))
  let phones ← (match p with
    | PyVal.list xs => asStrListE xs
    | _ => (Except.error "ValidationError: list type expected" : Except String (List String)))
  Except.ok { emails := emails, phones := phones, addresses := [] }

/-- Lines 279-287: `social_data = brand_info.get("social_handles", {})`
then `SocialHandles(instagram=social_data.get("instagram"), ...)`. -/
def buildSocial (bi : PyVal) : Except String SocialHandles := do
  let sd ← pyGetE bi "social_handles" (PyVal.dict [])
  let ig ← pyGetE sd "instagram" PyVal.none
  let fb ← pyGetE sd "facebook" PyVal.none
  let tw ← pyGetE sd "twitter" PyVal.none
  let tt ← pyGetE sd "tiktok" PyVal.none
  let yt ← pyGetE sd "youtube" PyVal.none
  let li ← pyGetE sd "linkedin" PyVal.none
  let ig2 ← asOptStrE ig
  let fb2 ← asOptStrE fb
  let tw2 ← asOptStrE tw
  let tt2 ← asOptStrE tt
  let yt2 ← asOptStrE yt
  let li2 ← asOptStrE li
  Except.ok { instagram := ig2, facebook := fb2, twitter := tw2,
              tiktok := tt2, youtube := yt2, linkedin := li2 }

/-- `brand_info.get(key, "")` followed by the `Optional[str]` validation of
the corresponding `BrandInsights` field (lines 293-294). -/
def optStrField (bi : PyVal) (key : String) : Except String (Option String) := do
  let v ← pyGetE bi key (PyVal.str "")
  asOptStrE v

/-- Lines 238-304: everything after the homepage and platform checks, as
the body of the orchestrator's `try`. An `Except.error` is an exception
reaching the outer handler of line 306. -/
def scrapeAssemble (env : ScrapeEnv) (url html : String) (pd : List PyVal) :
    Except String BrandInsights :=
  match List.mapM parse_product pd with
  | Except.error e => Except.error e
  | Except.ok all_products =>
    let hero_products := extract_hero_products (env.anchorsOf html) all_products
    let brand_info := extract_brand_info env.jsonLoads env.brandOutcome html url
    let faqFetch := fetch_url (env.att (urljoin url "/pages/faq"))
    let faq_html := if faqFetch.body.isEmpty then html else faqFetch.body
    match faqsFromData (extract_faqs env.jsonLoads env.faqOutcome faq_html) with
    | Except.error e => Except.error e
    | Except.ok faqs =>
      let policies := extract_policies env.att url
      let links := extract_important_links (env.anchorsOf html) url
      match buildContact brand_info with
      | Except.error e => Except.error e
      | Except.ok contact_info =>
        match buildSocial brand_info with
        | Except.error e => Except.error e
        | Except.ok social_handles =>
          match optStrField brand_info "brand_name" with
          | Except.error e => Except.error e
          | Except.ok brand_name =>
            match optStrField brand_info "brand_description" with
            | Except.error e => Except.error e
            | Except.ok brand_description =>
              Except.ok {
                website_url := url,
                brand_name := brand_name,
                brand_description := brand_description,
                product_catalog := all_products,
                hero_products := hero_products,
                contact_info := contact_info,
                social_handles := social_handles,
                policies := policies,
                faqs := faqs,
                important_links := links,
                total_products := all_products.length,
                status := "success",
                error_message := Option.none }

/-- Line 239 onwards: the full catalog pagination feeding `scrapeAssemble`.
`Option.none` propagates a non-terminating pagination loop. -/
def scrapeMain (env : ScrapeEnv) (url html : String) :
    Option (Except String BrandInsights) :=
  match get_products_json (env.pages url) env.fuel with
  | Option.none => Option.none
  | some (pd, _) => some (scrapeAssemble env url html pd)

/-- Lines 209-304: URL normalization, homepage fetch, the two early error
returns, and the platform-marker check with its catalog probe
(lines 229-236, a separate pagination run whose result is only tested for
emptiness). -/
def scrapeE (env : ScrapeEnv) (url0 : String) : Option (Except String BrandInsights) :=
  let url := normalizeUrl url0
  let r := fetch_url (env.att url)
  if r.status ≠ 200 then
    some (Except.ok (errorInsights url ("Website not accessible. Status code: " ++ toString r.status)))
  else
    let html := r.body
    if !(strContains (strLower html) "shopify") && !(strContains html "cdn.shopify.com") then
      match get_products_json (env.pages url) env.fuel with
      | Option.none => Option.none
      | some (probe, _) =>
        if probe.isEmpty then
          some (Except.ok (errorInsights url "Not a Shopify store or products not accessible"))
        else scrapeMain env url html
    else scrapeMain env url html

/-- `scrape_shopify_store`: the outer `except` of lines 306-312 converts
any exception into an error `BrandInsights` carrying its message. -/
def scrape_shopify_store (env : ScrapeEnv) (url0 : String) : Option BrandInsights :=
  (scrapeE env url0).map (fun x =>
    match x with
    | Except.ok b => b
    | Except.error msg => errorInsights (normalizeUrl url0) msg)

/-! ## Competitor phase (`insights.py`, `get_competitor_analysis`,
lines 66-89) -/

/-- The competitor fan-out after a successful primary scrape: the
candidate list is truncated to its first 2 entries (`[:2]`, line 82), each
is scheme-normalized and scraped, results are joined in order, and only
status "success" results are kept (`fetch_competitor` returns `None`
otherwise, filtered at line 84). -/
def get_competitor_insights (env : ScrapeEnv) (urls : List String) :
    Option (List BrandInsights) :=
  ((urls.take 2).mapM (fun u => scrape_shopify_store env (normalizeUrl u))).map
    (fun rs => rs.filterMap (fun b => if b.status = "success" then some b else Option.none))

/-! ## Helper lemmas -/

/-- With an empty handle set, the selection loop keeps nothing. -/
lemma heroSelect_nil_handles : ∀ (ps : List ProductSchema) (acc : List ProductSchema),
    heroSelect ps [] acc = acc.reverse := by
  intro ps
  induction ps with
  | nil => intro acc; rfl
  | cons p rest ih => intro acc; simpa [heroSelect] using ih acc

/-- `extract_hero_products` always returns `[]`: if any anchor matches the
product marker the handle-set construction raises (the swallowed
TypeError of line 139), and otherwise the handle set is empty. -/
lemma hero_always_nil (anchors : List String) (ps : List ProductSchema) :
    extract_hero_products anchors ps = [] := by
  unfold extract_hero_products heroBody
  rcases h : (anchors.filter (fun a => strContains a "/products/")).take 10 with _ | ⟨a0, rest⟩
  · simp [heroHandlesSet, heroSelect_nil_handles]
  · have ha0 : strContains a0 "/products/" = true := by
      have hmem : a0 ∈ (anchors.filter (fun a => strContains a "/products/")).take 10 := by
        rw [h]; exact List.mem_cons_self _ _
      have hmem2 : a0 ∈ anchors.filter (fun a => strContains a "/products/") :=
        List.take_subset _ _ hmem
      exact (List.mem_filter.mp hmem2).2
    simp [heroHandlesSet, ha0]

/-- `extract_faqs` returns the empty list on every call: its success path
reads the attribute `message` off the `choices` list itself, which always
raises AttributeError into the bare `except`. -/
lemma extract_faqs_eq_nil (jl : String → Except String PyVal) (o : GroqOutcome)
    (html : String) : extract_faqs jl o html = PyVal.list [] := by
  cases o with
  | resp choices => rfl
  | exn => rfl

/-- Behaviour of the retry loop on an arbitrary remaining attempt list:
at most one request per attempt, and the result is either the body of a
successful attempt with status 200, or the terminal `("", 500)` pair. -/
lemma fetchLoop_spec (att : Nat → Attempt) : ∀ (is : List Nat) (made : Nat) (ds : List Nat),
    (fetchLoop att is made ds).requests ≤ made + is.length ∧
    ((∃ i, i ∈ is ∧ att i = Attempt.ok (fetchLoop att is made ds).body ∧
        (fetchLoop att is made ds).status = 200) ∨
     ((fetchLoop att is made ds).body = "" ∧ (fetchLoop att is made ds).status = 500)) := by
  intro is
  induction is with
  | nil =>
    intro made ds
    exact ⟨by simp [fetchLoop], Or.inr ⟨rfl, rfl⟩⟩
  | cons i rest ih =>
    intro made ds
    cases h : att i with
    | ok b =>
      have heq : fetchLoop att (i :: rest) made ds
          = { body := b, status := 200, requests := made + 1, delays := ds.reverse } := by
        simp [fetchLoop, h]
      rw [heq]
      exact ⟨by simp only [List.length_cons]; omega,
        Or.inl ⟨i, List.mem_cons_self _ _, h, rfl⟩⟩
    | status c =>
      have hrec := ih (made + 1) (attemptDelay i c :: ds)
      constructor
      · calc (fetchLoop att (i :: rest) made ds).requests
            = (fetchLoop att rest (made + 1) (attemptDelay i c :: ds)).requests := by
              simp [fetchLoop, h]
          _ ≤ (made + 1) + rest.length := hrec.1
          _ = made + (i :: rest).length := by simp; omega
      · have heq : fetchLoop att (i :: rest) made ds
            = fetchLoop att rest (made + 1) (attemptDelay i c :: ds) := by
          simp [fetchLoop, h]
        rw [heq]
        rcases hrec.2 with ⟨j, hj, h1, h2⟩ | hr
        · exact Or.inl ⟨j, List.mem_cons_of_mem _ hj, h1, h2⟩
        · exact Or.inr hr
    | exn =>
      have hrec := ih (made + 1) (2 :: ds)
      constructor
      · calc (fetchLoop att (i :: rest) made ds).requests
            = (fetchLoop att rest (made + 1) (2 :: ds)).requests := by
              simp [fetchLoop, h]
          _ ≤ (made + 1) + rest.length := hrec.1
          _ = made + (i :: rest).length := by simp; omega
      · have heq : fetchLoop att (i :: rest) made ds
            = fetchLoop att rest (made + 1) (2 :: ds) := by
          simp [fetchLoop, h]
        rw [heq]
        rcases hrec.2 with ⟨j, hj, h1, h2⟩ | hr
        · exact Or.inl ⟨j, List.mem_cons_of_mem _ hj, h1, h2⟩
        · exact Or.inr hr

/-- Every `fetch_url` result carries status 200 or the terminal 500 with
an empty body: no other upstream status is ever surfaced. -/
lemma fetch_status (att : Nat → Attempt) :
    (fetch_url att).status = 200 ∨
    ((fetch_url att).status = 500 ∧ (fetch_url att).body = "") := by
  have h := (fetchLoop_spec att [0, 1, 2] 0 []).2
  rcases h with ⟨i, _, _, h2⟩ | ⟨h1, h2⟩
  · exact Or.inl h2
  · exact Or.inr ⟨h2, h1⟩

/-- Concatenation of `n` consecutive pages starting at page `start`. -/
def flatFrom (pages : Nat → List PyVal) : Nat → Nat → List PyVal
  | _, 0 => []
  | start, k + 1 => pages start ++ flatFrom pages (start + 1) k

/-- Length of the concatenation of `n` full pages. -/
lemma flatFrom_length (pages : Nat → List PyVal) :
    ∀ (n start : Nat), (∀ i, i < n → (pages (start + i)).length = 250) →
      (flatFrom pages start n).length = n * 250 := by
  intro n
  induction n with
  | zero => intro start _; simp [flatFrom]
  | succ k ih =>
    intro start h
    have h0 : (pages start).length = 250 := by simpa using h 0 (by omega)
    have hrest : (flatFrom pages (start + 1) k).length = k * 250 := by
      apply ih
      intro i hi
      have := h (i + 1) (by omega)
      have e : start + (i + 1) = start + 1 + i := by omega
      rwa [e] at this
    simp only [flatFrom, List.length_append, h0, hrest]
    ring

/-- A run of the pagination loop over `n` full pages followed by an empty
page: it consumes exactly `n + 1` page responses and accumulates the
concatenation of the `n` pages. -/
lemma pagesLoop_run (ep : Nat → PageResp) (pages : Nat → List PyVal) :
    ∀ (n start : Nat) (acc : List PyVal) (reqs fuel : Nat),
      (∀ i, i < n → ep (start + i) = PageResp.ok (PyVal.list (pages (start + i)))) →
      (∀ i, i < n → (pages (start + i)).length = 250) →
      ep (start + n) = PageResp.ok (PyVal.list []) →
      n + 1 ≤ fuel →
      pagesLoop ep fuel start acc reqs = some (acc ++ flatFrom pages start n, reqs + n + 1) := by
  intro n
  induction n with
  | zero =>
    intro start acc reqs fuel _ _ hlast hfuel
    obtain ⟨f, rfl⟩ : ∃ f, fuel = f + 1 := ⟨fuel - 1, by omega⟩
    have h0 : ep start = PageResp.ok (PyVal.list []) := by simpa using hlast
    simp [pagesLoop, h0, truthy, flatFrom]
  | succ k ih =>
    intro start acc reqs fuel hep hlen hlast hfuel
    obtain ⟨f, rfl⟩ : ∃ f, fuel = f + 1 := ⟨fuel - 1, by omega⟩
    have h0 : ep start = PageResp.ok (PyVal.list (pages start)) := by
      simpa using hep 0 (by omega)
    have hl0 : (pages start).length = 250 := by simpa using hlen 0 (by omega)
    have hne : (pages start).isEmpty = false := by
      cases hp : pages start with
      | nil => rw [hp] at hl0; simp at hl0
      | cons a l => simp
    have hrec := ih (start + 1) (acc ++ pages start) (reqs + 1) f
      (by intro i hi
          have := hep (i + 1) (by omega)
          have e : start + (i + 1) = start + 1 + i := by omega
          rwa [e] at this)
      (by intro i hi
          have := hlen (i + 1) (by omega)
          have e : start + (i + 1) = start + 1 + i := by omega
          rwa [e] at this)
      (by have e : start + (k + 1) = start + 1 + k := by omega
          rwa [e] at hlast)
      (by omega)
    have hnotlt : ¬ (pages start).length < 250 := by omega
    simp only [pagesLoop, h0, truthy, hne, Bool.not_false, pyExtend, hnotlt, if_neg,
      Bool.true_eq_false, if_false, reduceIte]
    rw [hrec]
    have e1 : (acc ++ pages start) ++ flatFrom pages (start + 1) k
        = acc ++ flatFrom pages start (k + 1) := by
      rw [List.append_assoc]; rfl
    have e2 : reqs + 1 + k + 1 = reqs + (k + 1) + 1 := by omega
    rw [e1, e2]

/-- On an endpoint that answers every page with a full page of 250
records, the pagination loop never exits, whatever the fuel. -/
lemma pagesLoop_always_full (rec : PyVal) :
    ∀ (fuel page : Nat) (acc : List PyVal) (reqs : Nat),
      pagesLoop (fun _ => PageResp.ok (PyVal.list (List.replicate 250 rec))) fuel page acc reqs
        = Option.none := by
  intro fuel
  induction fuel with
  | zero => intro page acc reqs; rfl
  | succ f ih =>
    intro page acc reqs
    have hne : (List.replicate 250 rec).isEmpty = false := by simp
    have hnotlt : ¬ (List.replicate 250 rec).length < 250 := by
      rw [List.length_replicate]; omega
    simp only [pagesLoop, truthy, hne, Bool.not_false, pyExtend, hnotlt, Bool.true_eq_false,
      reduceIte]
    exact ih (page + 1) (acc ++ List.replicate 250 rec) (reqs + 1)

/-- Projection facts common to every successfully assembled aggregate. -/
def successShape (b : BrandInsights) : Prop :=
  b.status = "success" ∧ b.error_message = Option.none ∧ b.hero_products = [] ∧
  b.faqs = [] ∧ b.total_products = b.product_catalog.length

/-- Every result of `scrapeAssemble` is either an exception or a
well-shaped success aggregate. -/
lemma scrapeAssemble_shape (env : ScrapeEnv) (url html : String) (pd : List PyVal) :
    (∃ m, scrapeAssemble env url html pd = Except.error m) ∨
    (∃ b, scrapeAssemble env url html pd = Except.ok b ∧ successShape b) := by
  have hf : faqsFromData (PyVal.list []) = Except.ok ([] : List FAQ) := rfl
  unfold scrapeAssemble
  simp only [extract_faqs_eq_nil, hf]
  rcases hm : List.mapM parse_product pd with e | ap
  · exact Or.inl ⟨e, rfl⟩
  · rcases hc : buildContact (extract_brand_info env.jsonLoads env.brandOutcome html url) with e | ci
    · simp only [hc]; exact Or.inl ⟨e, rfl⟩
    · rcases hs : buildSocial (extract_brand_info env.jsonLoads env.brandOutcome html url) with e | sh
      · simp only [hc, hs]; exact Or.inl ⟨e, rfl⟩
      · rcases hbn : optStrField (extract_brand_info env.jsonLoads env.brandOutcome html url) "brand_name" with e | bn
        · simp only [hc, hs, hbn]; exact Or.inl ⟨e, rfl⟩
        · rcases hbd : optStrField (extract_brand_info env.jsonLoads env.brandOutcome html url) "brand_description" with e | bd
          · simp only [hc, hs, hbn, hbd]; exact Or.inl ⟨e, rfl⟩
          · simp only [hc, hs, hbn, hbd]
            refine Or.inr ⟨_, rfl, rfl, rfl, ?_, rfl, rfl⟩
            exact hero_always_nil _ _

/-- Shape of any value the catalog phase can hand back. -/
lemma scrapeMain_shape (env : ScrapeEnv) (url html : String)
    (x : Except String BrandInsights) (h : scrapeMain env url html = some x) :
    (∃ m, x = Except.error m) ∨ (∃ b, x = Except.ok b ∧ successShape b) := by
  unfold scrapeMain at h
  rcases hq : get_products_json (env.pages url) env.fuel with _ | ⟨pd, n⟩
  · rw [hq] at h; cases h
  · rw [hq] at h
    have hx : x = scrapeAssemble env url html pd := by
      cases h; rfl
    rw [hx]
    exact scrapeAssemble_shape env url html pd

/-- Shape of any value `scrapeE` can produce: an early error aggregate,
an exception, or a well-shaped success aggregate. -/
lemma scrapeE_shape (env : ScrapeEnv) (url0 : String)
    (x : Except String BrandInsights) (h : scrapeE env url0 = some x) :
    (∃ m, x = Except.ok (errorInsights (normalizeUrl url0) m)) ∨
    (∃ m, x = Except.error m) ∨
    (∃ b, x = Except.ok b ∧ successShape b) := by
  unfold scrapeE at h
  by_cases hst : (fetch_url (env.att (normalizeUrl url0))).status ≠ 200
  · rw [if_pos hst] at h
    exact Or.inl ⟨_, by cases h; rfl⟩
  · rw [if_neg hst] at h
    by_cases hmk : (!(strContains (strLower (fetch_url (env.att (normalizeUrl url0))).body) "shopify")
        && !(strContains (fetch_url (env.att (normalizeUrl url0))).body "cdn.shopify.com")) = true
    · rw [if_pos hmk] at h
      rcases hq : get_products_json (env.pages (normalizeUrl url0)) env.fuel with _ | ⟨probe, n⟩
      · rw [hq] at h; cases h
      · simp only [hq] at h
        by_cases hemp : probe.isEmpty = true
        · rw [if_pos hemp] at h
          exact Or.inl ⟨_, by cases h; rfl⟩
        · rw [if_neg hemp] at h
          rcases scrapeMain_shape env (normalizeUrl url0) (fetch_url (env.att (normalizeUrl url0))).body x h with he | hs
          · exact Or.inr (Or.inl he)
          · exact Or.inr (Or.inr hs)
    · rw [if_neg hmk] at h
      rcases scrapeMain_shape env (normalizeUrl url0) (fetch_url (env.att (normalizeUrl url0))).body x h with he | hs
      · exact Or.inr (Or.inl he)
      · exact Or.inr (Or.inr hs)

/-- Every aggregate `scrape_shopify_store` returns is either an error
aggregate for the normalized URL or a well-shaped success aggregate. -/
lemma scrape_shape (env : ScrapeEnv) (url0 : String) (b : BrandInsights)
    (h : scrape_shopify_store env url0 = some b) :
    (∃ m, b = errorInsights (normalizeUrl url0) m) ∨ successShape b := by
  unfold scrape_shopify_store at h
  rcases hE : scrapeE env url0 with _ | x
  · rw [hE] at h; cases h
  · rw [hE] at h
    rcases scrapeE_shape env url0 x hE with ⟨m, hm⟩ | ⟨m, hm⟩ | ⟨b2, hb2, hs⟩
    · subst hm
      exact Or.inl ⟨m, by simpa using h.symm⟩
    · subst hm
      exact Or.inl ⟨m, by simpa using h.symm⟩
    · subst hb2
      have hb : b2 = b := by simpa using h
      rw [← hb]
      exact Or.inr hs

/-- When the homepage fetch does not end in status 200, the orchestrator
returns the "not accessible" error aggregate carrying that status. -/
lemma scrape_not_accessible (env : ScrapeEnv) (url0 : String) (b : BrandInsights)
    (h : scrape_shopify_store env url0 = some b)
    (hst : (fetch_url (env.att (normalizeUrl url0))).status ≠ 200) :
    b = errorInsights (normalizeUrl url0)
      ("Website not accessible. Status code: "
        ++ toString (fetch_url (env.att (normalizeUrl url0))).status) := by
  simp only [scrape_shopify_store, scrapeE] at h
  rw [if_pos hst] at h
  simpa using h.symm

/-! ## Claims -/

/-- The aggregate invariant asserted by the specification. -/
def aggregateInv (b : BrandInsights) : Prop :=
  (∀ p ∈ b.hero_products, ∃ q ∈ b.product_catalog, q.handle = p.handle) ∧
  b.hero_products.length ≤ 8 ∧
  b.total_products = b.product_catalog.length ∧
  (b.status = "error" ↔ b.error_message.isSome = true) ∧
  (b.status = "error" →
    b.product_catalog = [] ∧ b.hero_products = [] ∧ b.faqs = [] ∧
    b.important_links = [] ∧ b.policies = ({} : PolicyInfo) ∧
    b.contact_info = ({} : ContactInfo) ∧ b.social_handles = ({} : SocialHandles))

/-- Claim C1: every `BrandInsights` value produced by
`scrape_shopify_store` satisfies the aggregate invariant: hero products
are a subset of the catalog by handle, there are at most 8 of them,
`total_products` equals the catalog length, status is "error" exactly when
an error message is set, and in the error case all collections keep their
empty defaults. -/
theorem claim1_aggregate_invariant (env : ScrapeEnv) (url0 : String) (b : BrandInsights)
    (h : scrape_shopify_store env url0 = some b) : aggregateInv b := by
  rcases scrape_shape env url0 b h with ⟨m, hm⟩ | ⟨h1, h2, h3, h4, h5⟩
  · subst hm
    refine ⟨by simp [errorInsights], by simp [errorInsights], by simp [errorInsights], ?_, ?_⟩
    · constructor
      · intro _; rfl
      · intro _; rfl
    · intro _
      exact ⟨rfl, rfl, rfl, rfl, rfl, rfl, rfl⟩
  · have hne : b.status ≠ "error" := by rw [h1]; decide
    refine ⟨?_, ?_, h5, ?_, ?_⟩
    · intro p hp; rw [h3] at hp; cases hp
    · rw [h3]; simp
    · constructor
      · intro hc; exact absurd hc hne
      · intro hc; rw [h2] at hc; cases hc
    · intro hc; exact absurd hc hne

/-- Claim C9 (part of the statement is about the collaborator itself):
`GroqService.extract_faqs` returns the empty list on every input, because
its success path reads `response.choices.message.content` (an attribute
access on the choices list), so every invocation falls into the bare
`except`; consequently every successful `BrandInsights` has `faqs = []`. -/
theorem claim9_faqs_always_empty :
    (∀ (jl : String → Except String PyVal) (o : GroqOutcome) (html : String),
      extract_faqs jl o html = PyVal.list []) ∧
    (∀ (env : ScrapeEnv) (url0 : String) (b : BrandInsights),
      scrape_shopify_store env url0 = some b → b.status = "success" → b.faqs = []) := by
  constructor
  · exact extract_faqs_eq_nil
  · intro env url0 b h hs
    rcases scrape_shape env url0 b h with ⟨m, hm⟩ | ⟨_, _, _, h4, _⟩
    · subst hm
      simp [errorInsights] at hs
    · exact h4

/-- Claim C10: `fetch_url` only ever surfaces status 200 (with the fetched
body) or 500 (with an empty body) — no other upstream status reaches a
caller — and consequently the orchestrator's "Website not accessible"
message always reports status 500, never the upstream status. -/
theorem claim10_status_masking :
    (∀ (att : Nat → Attempt),
      (fetch_url att).status = 200 ∨
      ((fetch_url att).status = 500 ∧ (fetch_url att).body = "")) ∧
    (∀ (env : ScrapeEnv) (url0 : String) (b : BrandInsights),
      scrape_shopify_store env url0 = some b →
      (fetch_url (env.att (normalizeUrl url0))).status ≠ 200 →
      b.error_message = some "Website not accessible. Status code: 500") := by
  constructor
  · exact fetch_status
  · intro env url0 b h hst
    have h500 : (fetch_url (env.att (normalizeUrl url0))).status = 500 := by
      rcases fetch_status (env.att (normalizeUrl url0)) with h200 | ⟨h5, _⟩
      · exact absurd h200 hst
      · exact h5
    have hb := scrape_not_accessible env url0 b h hst
    rw [hb, h500]
    rfl

/-- Claim C6: `fetch_url` never raises: for every URL behaviour it issues
at most 3 requests and either returns the body of a successful (200)
attempt with status 200, or exactly the pair `("", 500)`. -/
theorem claim6_fetch_total (att : Nat → Attempt) :
    (fetch_url att).requests ≤ 3 ∧
    ((∃ i, i < 3 ∧ att i = Attempt.ok (fetch_url att).body ∧ (fetch_url att).status = 200) ∨
     ((fetch_url att).body = "" ∧ (fetch_url att).status = 500)) := by
  have h := fetchLoop_spec att [0, 1, 2] 0 []
  constructor
  · simpa using h.1
  · rcases h.2 with ⟨i, him, h1, h2⟩ | hr
    · refine Or.inl ⟨i, ?_, h1, h2⟩
      simp only [List.mem_cons, List.mem_singleton, List.not_mem_nil, or_false] at him
      omega
    · exact Or.inr hr

/-- Claim C7: against an endpoint answering 429, 429, then 200, `fetch_url`
returns the 200 body, issues exactly 3 requests, and the backoff inserted
before the 3rd request (10) is strictly greater than the one before the
2nd request (5): the 429 delay scales with the attempt number. -/
theorem claim7_backoff (att : Nat → Attempt) (b : String)
    (h0 : att 0 = Attempt.status 429) (h1 : att 1 = Attempt.status 429)
    (h2 : att 2 = Attempt.ok b) :
    fetch_url att = { body := b, status := 200, requests := 3, delays := [5, 10] } ∧
    (5 : Nat) < 10 := by
  constructor
  · simp [fetch_url, fetchLoop, h0, h1, h2, attemptDelay]
  · omega

/-- Claim C4: the paginator stops exactly at the first of an empty page, a
short page, or a non-success response. Conjunct 1: K full pages then an
empty page yield the K-page concatenation (K × 250 records) in exactly
K + 1 requests. Conjunct 2: a 250-record page then a 37-record page yield
287 records in exactly 2 requests, page 3 never being requested.
Conjunct 3: a non-success first response returns the accumulated empty
list after 1 request. -/
theorem claim4_pagination :
    (∀ (ep : Nat → PageResp) (pages : Nat → List PyVal) (K fuel : Nat),
      (∀ p, 1 ≤ p → p ≤ K → ep p = PageResp.ok (PyVal.list (pages p))) →
      (∀ p, 1 ≤ p → p ≤ K → (pages p).length = 250) →
      ep (K + 1) = PageResp.ok (PyVal.list []) →
      K + 1 ≤ fuel →
      get_products_json ep fuel = some (flatFrom pages 1 K, K + 1) ∧
      (flatFrom pages 1 K).length = K * 250) ∧
    (∀ (ep : Nat → PageResp) (r1 r2 : List PyVal) (fuel : Nat),
      ep 1 = PageResp.ok (PyVal.list r1) → r1.length = 250 →
      ep 2 = PageResp.ok (PyVal.list r2) → r2.length = 37 →
      2 ≤ fuel →
      get_products_json ep fuel = some (r1 ++ r2, 2) ∧ (r1 ++ r2).length = 287) ∧
    (∀ (ep : Nat → PageResp) (fuel : Nat),
      ep 1 = PageResp.fail → 1 ≤ fuel →
      get_products_json ep fuel = some ([], 1)) := by
  refine ⟨?_, ?_, ?_⟩
  · intro ep pages K fuel hep hlen hlast hfuel
    have hlen2 : ∀ i, i < K → (pages (1 + i)).length = 250 := by
      intro i hi; exact hlen (1 + i) (by omega) (by omega)
    constructor
    · have h := pagesLoop_run ep pages K 1 [] 0 fuel
        (by intro i hi; exact hep (1 + i) (by omega) (by omega))
        hlen2
        (by have e : (1 : Nat) + K = K + 1 := by omega
            rw [e]; exact hlast)
        hfuel
      simpa [get_products_json] using h
    · rw [flatFrom_length pages K 1 hlen2]
  · intro ep r1 r2 fuel h1 hl1 h2 hl2 hfuel
    obtain ⟨f, rfl⟩ : ∃ f, fuel = f + 2 := ⟨fuel - 2, by omega⟩
    have hne1 : r1.isEmpty = false := by
      cases hc : r1 with
      | nil => rw [hc] at hl1; simp at hl1
      | cons a l => simp
    have hne2 : r2.isEmpty = false := by
      cases hc : r2 with
      | nil => rw [hc] at hl2; simp at hl2
      | cons a l => simp
    have hnlt1 : ¬ r1.length < 250 := by omega
    have hlt2 : r2.length < 250 := by omega
    constructor
    · simp only [get_products_json, pagesLoop, h1, truthy, hne1, Bool.not_false, pyExtend,
        hnlt1, Bool.true_eq_false, reduceIte, h2, hne2, hlt2, if_true, List.nil_append]
    · simp [hl1, hl2]
  · intro ep fuel h1 hfuel
    obtain ⟨f, rfl⟩ : ∃ f, fuel = f + 1 := ⟨fuel - 1, by omega⟩
    simp [get_products_json, pagesLoop, h1]

/-- Claim C5 concerns the missing defensive page bound: on an endpoint
that answers every page with a full 250-record page, the pagination loop
of `get_products_json` never exits, however much fuel it is given — the
code has no upper page-count bound and does not terminate. -/
theorem claim5_unbounded_pagination (rec : PyVal) (fuel : Nat) :
    get_products_json (fun _ => PageResp.ok (PyVal.list (List.replicate 250 rec))) fuel
      = Option.none := by
  exact pagesLoop_always_full rec fuel 1 [] 0

/-- Claim C2 concerns normalizer totality. The failing input
`{"variants": 3}` makes the body of `parse_product` raise (iterating the
non-iterable `variants` in the `any(...)` expression); the except handler
then executes `ProductSchema(title="Parse Error", handle="error")`, which
omits the required `available` field, so pydantic raises a
ValidationError that propagates to the caller instead of the sentinel.
A record with wrong-typed tags, by contrast, is normalized fine with
`tags = []`. -/
theorem claim2_sentinel_raises :
    parse_product (PyVal.dict [("variants", PyVal.int 3)])
      = Except.error "ValidationError: available: field required" ∧
    (∃ p, parse_product (PyVal.dict [("tags", PyVal.int 7)]) = Except.ok p ∧ p.tags = []) := by
  constructor
  · rfl
  · exact ⟨_, rfl, rfl⟩

/-- The catalog product named by the anchor of the C3 failing input. -/
def widgetProduct : ProductSchema :=
  { title := "Widget", handle := "widget", available := true }

/-- Claim C3 concerns the hero matcher. Line 138 computes
`handle = href.split("/products/")[-1].split("?")[0].split("#")` — a LIST
(`["widget"]` here), because the final `[0]` is missing — and
`product_handles.add(handle)` raises TypeError, swallowed into `[]`. So
even when an anchor names exactly the handle of a catalog product, the
result is `[]`; in fact `extract_hero_products` returns `[]` on every
input. -/
theorem claim3_hero_matcher_bug :
    (∀ (anchors : List String) (ps : List ProductSchema),
      extract_hero_products anchors ps = []) ∧
    extract_hero_products ["/products/widget"] [widgetProduct] = [] ∧
    widgetProduct.handle = "widget" ∧
    heroHandleParts "/products/widget" = ["widget"] := by
  refine ⟨hero_always_nil, hero_always_nil _ _, rfl, ?_⟩
  decide

/-- Claim C8 (amended): in competitor mode only the FIRST TWO candidate
domains are attempted (`competitors_urls[:2]`); the competitors list
contains exactly the successful scrape results among those two, in
original relative order, with failures dropped silently and no error
raised. -/
theorem claim8_amended_first_two (env : ScrapeEnv) (u1 u2 u3 : String) (rest : List String)
    (b1 b2 : BrandInsights)
    (h1 : scrape_shopify_store env (normalizeUrl u1) = some b1)
    (h2 : scrape_shopify_store env (normalizeUrl u2) = some b2) :
    get_competitor_insights env (u1 :: u2 :: u3 :: rest) =
      some ((if b1.status = "success" then [b1] else []) ++
            (if b2.status = "success" then [b2] else [])) := by
  unfold get_competitor_insights
  have htake : (u1 :: u2 :: u3 :: rest).take 2 = [u1, u2] := rfl
  rw [htake]
  simp only [List.mapM_cons, List.mapM_nil, h1, h2, Option.pure_def, Option.bind_some,
    Option.bind_eq_bind, Option.map_some]
  by_cases s1 : b1.status = "success" <;> by_cases s2 : b2.status = "success" <;>
    simp [List.filterMap_cons, s1, s2]

/-! ## Concrete environments for witnesses and counterexamples -/

/-- A site whose every fetch succeeds with a platform-marked body, whose
catalog endpoint answers non-200, and whose remote-model calls raise. -/
def env0 : ScrapeEnv :=
  { att := fun _ _ => Attempt.ok "shopify",
    pages := fun _ _ => PageResp.fail,
    fuel := 1,
    anchorsOf := fun _ => [],
    jsonLoads := fun _ => Except.error "json.loads not reached",
    brandOutcome := GroqOutcome.exn,
    faqOutcome := GroqOutcome.exn }

/-- A site whose every fetch attempt answers HTTP 403. -/
def envFail : ScrapeEnv :=
  { env0 with att := fun _ _ => Attempt.status 403 }

/-- Candidate-competitor world: `a.com` and `b.com` fail (403 on every
attempt), every other site succeeds. -/
def envC : ScrapeEnv :=
  { env0 with att := fun u _ =>
      if strStarts u "https://a.com" || strStarts u "https://b.com" then Attempt.status 403
      else Attempt.ok "shopify" }

/-- 429 twice, then success. -/
def att429 : Nat → Attempt := fun i =>
  match i with
  | 0 => Attempt.status 429
  | 1 => Attempt.status 429
  | _ => Attempt.ok "homepage"

/-- One full page, then an empty page. -/
def epK : Nat → PageResp := fun p =>
  match p with
  | 1 => PageResp.ok (PyVal.list (List.replicate 250 (PyVal.int 1)))
  | _ => PageResp.ok (PyVal.list [])

/-- The page contents of `epK`. -/
def pagesK : Nat → List PyVal := fun _ => List.replicate 250 (PyVal.int 1)

/-- A full page, then a 37-record page. -/
def epShort : Nat → PageResp := fun p =>
  match p with
  | 1 => PageResp.ok (PyVal.list (List.replicate 250 (PyVal.int 1)))
  | 2 => PageResp.ok (PyVal.list (List.replicate 37 (PyVal.int 2)))
  | _ => PageResp.fail

/-- Witness for C1 at a concrete run (failing homepage). -/
theorem claim1_witness :
    aggregateInv ((scrape_shopify_store envFail "example.com").getD (errorInsights "x" "m")) :=
  claim1_aggregate_invariant envFail "example.com" _ rfl

/-- Witness for C9 at a concrete successful run. -/
theorem claim9_witness :
    ((scrape_shopify_store env0 "example.com").getD (errorInsights "x" "m")).faqs = [] :=
  claim9_faqs_always_empty.2 env0 "example.com" _ rfl rfl

/-- Witness for C10 at a concrete run whose homepage answers 403. -/
theorem claim10_witness :
    ((scrape_shopify_store envFail "example.com").getD (errorInsights "x" "m")).error_message
      = some "Website not accessible. Status code: 500" :=
  claim10_status_masking.2 envFail "example.com" _ rfl (by decide)

/-- Witness for C7 at the concrete 429/429/200 endpoint. -/
theorem claim7_witness :
    fetch_url att429
      = { body := "homepage", status := 200, requests := 3, delays := [5, 10] } ∧
    (5 : Nat) < 10 :=
  claim7_backoff att429 "homepage" rfl rfl rfl

/-- Witness for C4 at concrete endpoints (K = 1 full page then empty;
250 then 37; non-success at page 1). -/
theorem claim4_witness :
    (get_products_json epK 2 = some (flatFrom pagesK 1 1, 2) ∧
      (flatFrom pagesK 1 1).length = 1 * 250) ∧
    (get_products_json epShort 2
        = some (List.replicate 250 (PyVal.int 1) ++ List.replicate 37 (PyVal.int 2), 2) ∧
      (List.replicate 250 (PyVal.int 1) ++ List.replicate 37 (PyVal.int 2)).length = 287) ∧
    get_products_json (fun _ => PageResp.fail) 1 = some ([], 1) := by
  refine ⟨claim4_pagination.1 epK pagesK 1 2 ?_ ?_ rfl (by omega),
          claim4_pagination.2.1 epShort _ _ 2 rfl (by rw [List.length_replicate]) rfl
            (by rw [List.length_replicate]) (by omega),
          claim4_pagination.2.2 (fun _ => PageResp.fail) 1 rfl (by omega)⟩
  · intro p hp1 hp2
    have hp : p = 1 := by omega
    subst hp; rfl
  · intro p hp1 hp2
    have hp : p = 1 := by omega
    subst hp; simp only [pagesK, List.length_replicate]

/-- Counterexample for C8 as stated: with candidates
`["a.com", "b.com", "c.com"]` where the first two fail and `c.com` would
scrape successfully, the competitors list is empty — the successful
candidate is NOT contained in it, because only the first two candidates
are ever attempted. -/
theorem claim8_counterexample :
    get_competitor_insights envC ["a.com", "b.com", "c.com"] = some [] ∧
    (scrape_shopify_store envC (normalizeUrl "c.com")).map BrandInsights.status
      = some "success" := by
  exact ⟨rfl, rfl⟩

/-- Witness for the amended C8 at the concrete candidate world. -/
theorem claim8_witness :
    get_competitor_insights envC ["a.com", "b.com", "c.com"] = some ([] ++ []) := by
  have h := claim8_amended_first_two envC "a.com" "b.com" "c.com" []
    ((scrape_shopify_store envC (normalizeUrl "a.com")).getD (errorInsights "x" "m"))
    ((scrape_shopify_store envC (normalizeUrl "b.com")).getD (errorInsights "x" "m"))
    rfl rfl
  exact h.trans (by rfl)
